import Mathlib

/-!
Verification of the MCP orchestrator repository.

This file gives a shallow embedding, in Lean 4, of the pieces of the
repository that the specification talks about:

* `config/config_manager.py` — the configuration deep-merge
  (`ConfigManager._merge_configs`) and dot-path lookup (`ConfigManager.get`),
  modelled twice: once as a pure function over configuration trees, and once
  over an explicit heap of Python objects so that the non-destructiveness
  (frame) property of the merge can be stated.
* the module-level startup of `main.py` (required environment variables).
* `orchestration/workflow.py` — the five-step per-query pipeline
  (guardrail → router → fan-out → visualization), modelled as a function
  from per-query oracles (the outcomes of the external LLM/MCP calls,
  which are black boxes to this repository) to a trace of events.
* `main.py`'s `run` — the two-platform variant of the same pipeline.

External calls (`Runner.run` on the various agents) are modelled by an
oracle of type `Except String α`: `.ok` is a normal return, `.error` is a
raised exception carrying its message.  Cooperative concurrency is modelled
by giving each platform call a latency; `asyncio.gather` over independent
single-await tasks completes when the slowest completes, so its elapsed
time is the maximum of the latencies, while sequential awaiting would sum
them.
-/

set_option autoImplicit false

namespace MCPOrch

/-! ## Configuration values (YAML trees), `config/config_manager.py` -/

/-- A YAML/Python configuration value: scalars or a string-keyed dictionary.
Dictionaries are association lists in insertion order, as Python dicts are. -/
inductive ConfigVal where
  | null
  | bool (b : Bool)
  | int (n : Int)
  | str (s : String)
  | dict (entries : List (String × ConfigVal))

/-- First-match lookup in an association list (`d[k]` / `k in d`). -/
def dictGet? {α : Type} : List (String × α) → String → Option α
  | [], _ => none
  | (k', v) :: rest, k => if k' = k then some v else dictGet? rest k

/-- Python `d[k] = v` on a dict rendered as an association list: replace the
binding in place when the key is present, append otherwise (insertion order). -/
def dictSet {α : Type} (d : List (String × α)) (k : String) (v : α) : List (String × α) :=
  if d.any (fun p => decide (p.1 = k)) then
    d.map (fun p => if p.1 = k then (k, v) else p)
  else
    d ++ [(k, v)]

/-- `ConfigManager._merge_configs` (config_manager.py lines 66–85), value
level: start from a copy of `base`, then for each override entry recurse when
both sides are dicts, otherwise let the override value replace the base one. -/
def merge_configs : List (String × ConfigVal) → List (String × ConfigVal) → List (String × ConfigVal)
  | base, [] => base
  | base, (k, v) :: rest =>
    match dictGet? base k, v with
    | some (ConfigVal.dict rd), ConfigVal.dict vd =>
      merge_configs (dictSet base k (ConfigVal.dict (merge_configs rd vd))) rest
    | _, _ => merge_configs (dictSet base k v) rest
termination_by _ o => sizeOf o

/-- The per-key behaviour the spec describes for the deep merge: recurse when
both sides hold dicts, otherwise the override wins, and keys absent from the
override keep their base value. -/
def mergeLookup : Option ConfigVal → Option ConfigVal → Option ConfigVal
  | some (ConfigVal.dict bd), some (ConfigVal.dict od) =>
      some (ConfigVal.dict (merge_configs bd od))
  | _, some v => some v
  | b, none => b

/-! ## Dot-path lookup, `ConfigManager.get` (config_manager.py lines 87–106) -/

/-- Helper for `pySplit`: accumulate the current segment (reversed) while
scanning the characters. -/
def pySplitAux (c : Char) : List Char → List Char → List String
  | [], cur => [String.mk cur.reverse]
  | x :: xs, cur =>
    if x = c then String.mk cur.reverse :: pySplitAux c xs []
    else pySplitAux c xs (x :: cur)

/-- Python's `s.split(c)` with an explicit one-character separator: splits at
every occurrence, keeping empty segments (`"".split('.') == ['']`). -/
def pySplit (s : String) (c : Char) : List String := pySplitAux c s.data []

/-- The loop `for key in keys: value = value[key]` of `ConfigManager.get`:
walking into a non-dict raises `TypeError`, a missing key raises `KeyError`;
both are modelled by `none` (they are the two exceptions the code catches). -/
def getValue : ConfigVal → List String → Option ConfigVal
  | v, [] => some v
  | ConfigVal.dict d, k :: rest =>
    match dictGet? d k with
    | some v => getValue v rest
    | none => none
  | _, _ :: _ => none

/-- `ConfigManager.get`: split the key path on dots, walk the tree, and fall
back to the caller-supplied default on `KeyError`/`TypeError`. -/
def configManagerGet (config : List (String × ConfigVal)) (key_path : String)
    (default : ConfigVal) : ConfigVal :=
  match getValue (ConfigVal.dict config) (pySplit key_path '.') with
  | some v => v
  | none => default

/-- Spec-side description of a successful dot-path lookup: every segment is
present, each intermediate value is a dictionary, and the walk ends at `w`. -/
inductive Resolves : ConfigVal → List String → ConfigVal → Prop where
  | nil (v : ConfigVal) : Resolves v [] v
  | cons (d : List (String × ConfigVal)) (k : String) (rest : List String)
      (v w : ConfigVal) :
      dictGet? d k = some v → Resolves v rest w →
      Resolves (ConfigVal.dict d) (k :: rest) w

/-! ## Startup environment checks, `main.py` module level (lines 33–52) -/

/-- The fatal startup errors of `main.py`'s module-level code: `ValueError`
with its message, or `FileNotFoundError` for a missing base config file. -/
inductive InitError where
  | valueError (msg : String)
  | fileNotFoundError
deriving DecidableEq

/-- The module-level startup of `main.py` in order: after `load_dotenv` the
process environment is `env1`; `ENV` is checked there; `load_config` raises
`FileNotFoundError` when the base config file is missing; after the
environment-specific `load_dotenv(..., override=True)` the environment is
`env2`, where the two Azure variables are checked.  Each check raises a
`ValueError` with the literal message from the source. -/
def moduleInit (env1 env2 : String → Option String) (baseConfigExists : Bool) :
    Except InitError Unit :=
  match env1 "ENV" with
  | none => .error (.valueError "ENV environment variable is required, please set it in the .env file. It will be default to 'development' if not set.")
  | some _ =>
    if baseConfigExists then
      match env2 "AZURE_OPENAI_ENDPOINT" with
      | none => .error (.valueError "AZURE_OPENAI_ENDPOINT environment variable is required")
      | some _ =>
        match env2 "AZURE_OPENAI_API_KEY" with
        | none => .error (.valueError "AZURE_OPENAI_API_KEY environment variable is required")
        | some _ => .ok ()
    else
      .error .fileNotFoundError

/-! ## Shared pipeline data model (`models/`, `main.py`) -/

/-- `HasSensitiveInformation` (models/guardrail.py, main.py): the guardrail
verdict returned by the guardrail agent. -/
structure HasSensitiveInformation where
  has_sensitive_information : Bool
  reasoning : String
deriving DecidableEq

/-- `ServiceDecision` (models/orchestration.py): the three-platform routing
decision used by `orchestration/workflow.py`. -/
structure ServiceDecision where
  servicenow : Bool
  gti : Bool
  opensearch : Bool
  reasoning : String
deriving DecidableEq

/-- The shared shape of `ServiceNowQuery`, `GTIQuery` and `OpenSearchQuery`:
the original query, the platform's textual result and the source name. -/
structure PlatformQueryRecord where
  query : String
  result : String
  source : String
deriving DecidableEq

/-- `VisualizationResult` (models/visualization.py): output of the
visualization agent. -/
structure VisualizationResult where
  summary : String
  visualization_type : String
  code_snippet : String
deriving DecidableEq

/-- The observable events of one pipeline run: each external call that is
issued (with its argument), the guardrail early-exit, the per-platform
failure logs of the fan-out step, and the top-level per-query error log. -/
inductive Event where
  | guardrailCall (query : String)
  | guardrailTripped (reasoning : String)
  | routerCall (query : String)
  | servicenowCall (query : String)
  | gtiCall (query : String)
  | opensearchCall (query : String)
  | platformFailureLogged (service : String) (err : String)
  | visualizeCall (context : String)
  | aggregateCall (context : String)
  | queryErrorLogged (err : String)
deriving DecidableEq

/-- Whether an event is an invocation of the visualization step. -/
def isVisualizeCall : Event → Bool
  | Event.visualizeCall _ => true
  | _ => false

/-- Whether an event is an invocation of the aggregation step of `main.py`. -/
def isAggregateCall : Event → Bool
  | Event.aggregateCall _ => true
  | _ => false

/-- The three platforms of `orchestration/workflow.py`. -/
inductive Service where
  | servicenow
  | gti
  | opensearch
deriving DecidableEq

namespace Workflow

/-- Per-query oracle: the outcome of every external call the pipeline can
make for one query (`Except.error` is a raised exception carrying its
message), plus the latency of each platform call for the timing model. -/
structure Oracle where
  guardrail : Except String HasSensitiveInformation
  router : Except String ServiceDecision
  servicenow : Except String String
  servicenowLatency : Nat
  gti : Except String String
  gtiLatency : Nat
  opensearch : Except String String
  opensearchLatency : Nat
  visualize : Except String VisualizationResult

/-- The flag of `ServiceDecision` that selects a given platform. -/
def flagOf (d : ServiceDecision) : Service → Bool
  | .servicenow => d.servicenow
  | .gti => d.gti
  | .opensearch => d.opensearch

/-- The `service_name` strings used in `services_to_query`. -/
def pyName : Service → String
  | .servicenow => "servicenow"
  | .gti => "gti"
  | .opensearch => "opensearch"

/-- The `source` field each `query_*` helper stamps on its record. -/
def sourceName : Service → String
  | .servicenow => "ServiceNow"
  | .gti => "Google Threat Intelligence"
  | .opensearch => "OpenSearch"

/-- Outcome of `Runner.run` for one platform's agent, from the oracle. -/
def outcomeOf (o : Oracle) : Service → Except String String
  | .servicenow => o.servicenow
  | .gti => o.gti
  | .opensearch => o.opensearch

/-- Latency of one platform call, from the oracle. -/
def latencyOf (o : Oracle) : Service → Nat
  | .servicenow => o.servicenowLatency
  | .gti => o.gtiLatency
  | .opensearch => o.opensearchLatency

/-- The event recording that a platform's query coroutine actually ran. -/
def callEvent (q : String) : Service → Event
  | .servicenow => .servicenowCall q
  | .gti => .gtiCall q
  | .opensearch => .opensearchCall q

/-- `services_to_query` (workflow.py lines 292–298): the selected platforms,
in the fixed servicenow, gti, opensearch order. -/
def selected (d : ServiceDecision) : List Service :=
  (if d.servicenow then [Service.servicenow] else [])
    ++ (if d.gti then [Service.gti] else [])
    ++ (if d.opensearch then [Service.opensearch] else [])

/-- The per-query result variables `servicenow_results`, `gti_results`,
`opensearch_results`, each `None` until (and unless) assigned. -/
structure ResultSlots where
  servicenow_results : Option (List PlatformQueryRecord)
  gti_results : Option (List PlatformQueryRecord)
  opensearch_results : Option (List PlatformQueryRecord)
deriving DecidableEq

/-- All three result variables initialized to `None` (lines 286–288). -/
def emptySlots : ResultSlots := ⟨none, none, none⟩

/-- Assign one platform's result variable. -/
def setSlot (sl : ResultSlots) : Service → Option (List PlatformQueryRecord) → ResultSlots
  | .servicenow, v => ⟨v, sl.gti_results, sl.opensearch_results⟩
  | .gti, v => ⟨sl.servicenow_results, v, sl.opensearch_results⟩
  | .opensearch, v => ⟨sl.servicenow_results, sl.gti_results, v⟩

/-- Read one platform's result variable. -/
def slotOf (sl : ResultSlots) : Service → Option (List PlatformQueryRecord)
  | .servicenow => sl.servicenow_results
  | .gti => sl.gti_results
  | .opensearch => sl.opensearch_results

/-- What the result-processing loop of the parallel branch (lines 307–322)
stores for one platform: `None` when that platform's task raised, otherwise
the singleton record list built by `query_servicenow`/`query_gti`/
`query_opensearch`. -/
def slotVal (q : String) (o : Oracle) (s : Service) : Option (List PlatformQueryRecord) :=
  match outcomeOf o s with
  | .error _ => none
  | .ok r => some [⟨q, r, sourceName s⟩]

/-- The failure log the parallel branch prints for a platform whose task
raised (line 309), if any. -/
def failLog (o : Oracle) (s : Service) : Option Event :=
  match outcomeOf o s with
  | .error e => some (.platformFailureLogged (pyName s) e)
  | .ok _ => none

/-- Result of the fan-out step (workflow.py lines 300–337): the events it
emits, the three result variables afterwards, the exception it re-raised to
the per-query handler (only possible on the single-platform `await` path),
and its elapsed time under the latency model. -/
structure FanoutResult where
  events : List Event
  slots : ResultSlots
  aborted : Option String
  elapsed : Option Nat
deriving DecidableEq

/-- Maximum of a list of latencies (completion time of an `asyncio.gather`
join over independent single-await tasks started together). -/
def maxLatency (ls : List Nat) : Nat := ls.foldr Nat.max 0

/-- The fan-out step, by the shape of `services_to_query`:
nothing selected — both branches skipped, no platform queried;
exactly one selected — `await task` runs it synchronously, and an exception
propagates out of the step;
two or more selected — `asyncio.gather(..., return_exceptions=True)` runs
all of them, then the loop logs each failure and fills each slot, so no
exception escapes and the step's elapsed time is the slowest task's latency. -/
def fanout (q : String) (o : Oracle) : List Service → FanoutResult
  | [] => ⟨[], emptySlots, none, none⟩
  | [s] =>
    match outcomeOf o s with
    | .error e => ⟨[callEvent q s], emptySlots, some e, some (latencyOf o s)⟩
    | .ok r => ⟨[callEvent q s], setSlot emptySlots s (some [⟨q, r, sourceName s⟩]),
        none, some (latencyOf o s)⟩
  | ss@(_ :: _ :: _) =>
    ⟨ss.map (callEvent q) ++ ss.filterMap (failLog o),
      ss.foldl (fun sl s => setSlot sl s (slotVal q o s)) emptySlots,
      none,
      some (maxLatency (ss.map (latencyOf o)))⟩

/-- `visualize_results` context construction (workflow.py lines 210–225),
translated line by line: start from the original-query line, then for each
result list that is truthy (present and non-empty — Python's `if xs:`)
append its heading, one `- result` line per record via the loop, and a blank
line. -/
def buildVizContext (user_query : String)
    (servicenow_results gti_results opensearch_results :
      Option (List PlatformQueryRecord)) : String :=
  let context := "Original Query: " ++ user_query ++ "\n\n"
  let context :=
    match servicenow_results with
    | some rs@(_ :: _) =>
      (rs.foldl (fun c r => c ++ "- " ++ r.result ++ "\n")
        (context ++ "ServiceNow Results:\n")) ++ "\n"
    | _ => context
  let context :=
    match gti_results with
    | some rs@(_ :: _) =>
      (rs.foldl (fun c r => c ++ "- " ++ r.result ++ "\n")
        (context ++ "GTI Results:\n")) ++ "\n"
    | _ => context
  let context :=
    match opensearch_results with
    | some rs@(_ :: _) =>
      (rs.foldl (fun c r => c ++ "- " ++ r.result ++ "\n")
        (context ++ "OpenSearch Results:\n")) ++ "\n"
    | _ => context
  context

/-- Step 5 and the tail of the per-query `try` block: if the fan-out step
re-raised, the per-query handler logs it; otherwise `visualize_results` is
called on the accumulated slots, and an exception from it is likewise caught
only by the per-query handler. -/
def postFanout (q : String) (o : Oracle) (f : FanoutResult) : List Event :=
  match f.aborted with
  | some e => [Event.queryErrorLogged e]
  | none =>
    let ctx := buildVizContext q f.slots.servicenow_results f.slots.gti_results
      f.slots.opensearch_results
    match o.visualize with
    | .error e => [Event.visualizeCall ctx, Event.queryErrorLogged e]
    | .ok _ => [Event.visualizeCall ctx]

/-- One iteration of the query loop of `run` (workflow.py lines 267–347):
guardrail check (a guardrail exception reaches the per-query handler), the
`continue` on a flagged query, the router call, the fan-out step, and the
visualization step.  Returns the emitted events and the fan-out step's
elapsed time. -/
def runQuery (q : String) (o : Oracle) : List Event × Option Nat :=
  match o.guardrail with
  | .error e => ([.guardrailCall q, .queryErrorLogged e], none)
  | .ok g =>
    if g.has_sensitive_information then
      ([.guardrailCall q, .guardrailTripped g.reasoning], none)
    else
      match o.router with
      | .error e => ([.guardrailCall q, .routerCall q, .queryErrorLogged e], none)
      | .ok d =>
        let f := fanout q o (selected d)
        (.guardrailCall q :: .routerCall q :: f.events ++ postFanout q o f, f.elapsed)

/-- The whole query loop of `run`: queries are processed strictly one after
another; every exception is caught by the per-query handler, so one query's
outcome never stops the loop. -/
def runLoop : List (String × Oracle) → List Event
  | [] => []
  | (q, o) :: rest => (runQuery q o).1 ++ runLoop rest

end Workflow

namespace MainPy

/-- `ServiceDecision` as defined in `main.py` (lines 125–136): two platform
flags only. -/
structure MainServiceDecision where
  servicenow : Bool
  gti : Bool
  reasoning : String
deriving DecidableEq

/-- `AggregatedResult` (main.py lines 107–122), the aggregator agent's
structured output. -/
structure AggregatedResult where
  original_query : String
  servicenow_results : Option (List PlatformQueryRecord)
  gti_results : Option (List PlatformQueryRecord)
  summary : String
  recommendations : Option (List String)
deriving DecidableEq

/-- Per-query oracle for `main.py`'s `run`: outcomes of the guardrail,
orchestrator, the two platform agents (with latencies) and the aggregator. -/
structure Oracle where
  guardrail : Except String HasSensitiveInformation
  router : Except String MainServiceDecision
  servicenow : Except String String
  servicenowLatency : Nat
  gti : Except String String
  gtiLatency : Nat
  aggregate : Except String AggregatedResult

/-- `aggregate_results` context construction (main.py lines 339–352): same
concatenation as the workflow variant, for the two platforms, followed by the
fixed closing request line. -/
def aggContext (user_query : String)
    (servicenow_results gti_results : Option (List PlatformQueryRecord)) : String :=
  let context := "Original Query: " ++ user_query ++ "\n\n"
  let context :=
    match servicenow_results with
    | some rs@(_ :: _) =>
      (rs.foldl (fun c r => c ++ "- " ++ r.result ++ "\n")
        (context ++ "ServiceNow Results:\n")) ++ "\n"
    | _ => context
  let context :=
    match gti_results with
    | some rs@(_ :: _) =>
      (rs.foldl (fun c r => c ++ "- " ++ r.result ++ "\n")
        (context ++ "GTI Results:\n")) ++ "\n"
    | _ => context
  context ++ "Please provide a comprehensive summary and recommendations based on all available information."

/-- Step 3 of `main.py`'s `run` (lines 415–456): the two result variables,
the events of the branch taken, and the exception re-raised to the per-query
handler (possible only on the two single-platform `await` branches).
When both flags are set, `asyncio.gather(..., return_exceptions=True)` runs
both tasks; each failure is logged and leaves that slot `None`. -/
def mainFanout (q : String) (o : Oracle) (d : MainServiceDecision) :
    List Event × (Option (List PlatformQueryRecord) × Option (List PlatformQueryRecord))
      × Option String :=
  if d.servicenow && d.gti then
    let snEvents :=
      match o.servicenow with
      | .error e => [Event.platformFailureLogged "ServiceNow" e]
      | .ok _ => []
    let gtiEvents :=
      match o.gti with
      | .error e => [Event.platformFailureLogged "GTI" e]
      | .ok _ => []
    let snSlot :=
      match o.servicenow with
      | .error _ => none
      | .ok r => some [PlatformQueryRecord.mk q r "ServiceNow"]
    let gtiSlot :=
      match o.gti with
      | .error _ => none
      | .ok r => some [PlatformQueryRecord.mk q r "Google Threat Intelligence"]
    ([Event.servicenowCall q, Event.gtiCall q] ++ snEvents ++ gtiEvents,
      (snSlot, gtiSlot), none)
  else if d.servicenow then
    match o.servicenow with
    | .error e => ([Event.servicenowCall q], (none, none), some e)
    | .ok r =>
      ([Event.servicenowCall q], (some [PlatformQueryRecord.mk q r "ServiceNow"], none), none)
  else if d.gti then
    match o.gti with
    | .error e => ([Event.gtiCall q], (none, none), some e)
    | .ok r =>
      ([Event.gtiCall q],
        (none, some [PlatformQueryRecord.mk q r "Google Threat Intelligence"]), none)
  else
    ([], (none, none), none)

/-- Elapsed time of the fan-out branch taken, under the latency model:
the gather join finishes with the slower of the two tasks, a single `await`
takes that platform's latency, and no timing is taken when nothing runs. -/
def mainFanoutElapsed (o : Oracle) (d : MainServiceDecision) : Option Nat :=
  if d.servicenow && d.gti then some (Nat.max o.servicenowLatency o.gtiLatency)
  else if d.servicenow then some o.servicenowLatency
  else if d.gti then some o.gtiLatency
  else none

/-- Steps 4–5 and the per-query handler tail: log a re-raised fan-out
exception, otherwise call `aggregate_results`; an aggregator exception is
caught only by the per-query handler. -/
def postFanout (q : String) (o : Oracle)
    (f : List Event × (Option (List PlatformQueryRecord) × Option (List PlatformQueryRecord))
      × Option String) : List Event :=
  match f.2.2 with
  | some e => [Event.queryErrorLogged e]
  | none =>
    let ctx := aggContext q f.2.1.1 f.2.1.2
    match o.aggregate with
    | .error e => [Event.aggregateCall ctx, Event.queryErrorLogged e]
    | .ok _ => [Event.aggregateCall ctx]

/-- One iteration of the query loop of `main.py`'s `run` (lines 395–470). -/
def runQuery (q : String) (o : Oracle) : List Event :=
  match o.guardrail with
  | .error e => [.guardrailCall q, .queryErrorLogged e]
  | .ok g =>
    if g.has_sensitive_information then
      [.guardrailCall q, .guardrailTripped g.reasoning]
    else
      match o.router with
      | .error e => [.guardrailCall q, .routerCall q, .queryErrorLogged e]
      | .ok d =>
        let f := mainFanout q o d
        .guardrailCall q :: .routerCall q :: f.1 ++ postFanout q o f

/-- The whole query loop of `main.py`'s `run`. -/
def runLoop : List (String × Oracle) → List Event
  | [] => []
  | (q, o) :: rest => runQuery q o ++ runLoop rest

/-- The program as a whole: the module-level startup runs first, and only if
it succeeds does the query loop process any query. -/
def mainProgram (env1 env2 : String → Option String) (baseConfigExists : Bool)
    (queries : List (String × Oracle)) : Except InitError (List Event) :=
  match moduleInit env1 env2 baseConfigExists with
  | .error e => .error e
  | .ok _ => .ok (runLoop queries)

end MainPy

/-! ## Spec-side description of the aggregation context (claim C5) -/

/-- One `- <result text>` line per collected record, in order. -/
def specLines : List PlatformQueryRecord → String
  | [] => ""
  | r :: rest => "- " ++ r.result ++ "\n" ++ specLines rest

/-- Spec-side section for one platform: nothing when the results are absent,
otherwise the platform heading, the per-record lines, and a blank line. -/
def specSection (heading : String) : Option (List PlatformQueryRecord) → String
  | none => ""
  | some rs => heading ++ specLines rs ++ "\n"

/-! ## Heap model of `_merge_configs` (claim C10)

To state that the merge is non-destructive we need Python's object
identity: dictionaries are heap objects that hold addresses of their
values. The heap is a list of objects, an address is an index into it,
and allocation appends. `result = base.copy()` is a shallow copy, so the
fresh result dict starts out holding the very addresses of `base`'s
entries; `result[key] = ...` then rebinds keys of the fresh dict only. -/

/-- A Python object: a scalar, or a dict holding addresses of its values. -/
inductive PyVal where
  | int (n : Int)
  | str (s : String)
  | bool (b : Bool)
  | none_
  | dict (entries : List (String × Nat))
deriving DecidableEq

/-- The heap: address `a` holds `h.get? a`. Allocation appends. -/
abbrev Heap := List PyVal

/-- The `for key, value in override.items():` loop of `_merge_configs`,
parameterized by the recursive merge (`mergeFn`): `acc` is the entry list of
the (fresh, unshared) result dict, initially the shallow copy of the base's.
When the key is present in the result and both its current value and the
override value are dicts, merge them recursively (allocating) and rebind the
key to the new address; otherwise rebind the key to the override's address. -/
def mergeEntriesWith (mergeFn : Heap → Nat → Nat → Option (Heap × Nat)) :
    Heap → List (String × Nat) → List (String × Nat) →
    Option (Heap × List (String × Nat))
  | h, acc, [] => some (h, acc)
  | h, acc, (k, va) :: rest =>
    match dictGet? acc k with
    | some ba =>
      match h.get? ba, h.get? va with
      | some (PyVal.dict _), some (PyVal.dict _) =>
        match mergeFn h ba va with
        | some (h', na) => mergeEntriesWith mergeFn h' (dictSet acc k na) rest
        | none => none
      | _, _ => mergeEntriesWith mergeFn h (dictSet acc k va) rest
    | none => mergeEntriesWith mergeFn h (dictSet acc k va) rest

/-- `_merge_configs` over the heap, with fuel bounding the recursion depth
(Python's recursion limit): read both dicts, shallow-copy the base's entry
list, run the override loop, and allocate the fresh result dict. Returns the
extended heap and the address of the result. -/
def mergeConfigsHeap : Nat → Heap → Nat → Nat → Option (Heap × Nat)
  | 0, _, _, _ => none
  | fuel + 1, h, baseAddr, overAddr =>
    match h.get? baseAddr, h.get? overAddr with
    | some (PyVal.dict baseEntries), some (PyVal.dict overEntries) =>
      match mergeEntriesWith (mergeConfigsHeap fuel) h baseEntries overEntries with
      | some (h', entries) => some (h' ++ [PyVal.dict entries], h'.length)
      | none => none
    | _, _ => none

/-! ## Lemmas about association-list update and lookup -/

@[simp] theorem dictGet?_nil {α : Type} (k : String) :
    dictGet? ([] : List (String × α)) k = none := rfl

theorem dictGet?_cons {α : Type} (k' : String) (v : α) (rest : List (String × α))
    (k : String) :
    dictGet? ((k', v) :: rest) k = if k' = k then some v else dictGet? rest k := rfl

theorem dictGet?_map_set {α : Type} (d : List (String × α)) (k : String) (v : α)
    (h : d.any (fun p => decide (p.1 = k)) = true) :
    dictGet? (d.map (fun p => if p.1 = k then (k, v) else p)) k = some v := by
  induction d with
  | nil => simp at h
  | cons p rest ih =>
    rw [List.map_cons]
    by_cases hk : p.1 = k
    · rw [if_pos hk, dictGet?_cons, if_pos rfl]
    · rw [if_neg hk]
      have hrest : rest.any (fun p => decide (p.1 = k)) = true := by
        simpa [hk] using h
      rcases p with ⟨pk, pv⟩
      simp only at hk
      rw [dictGet?_cons, if_neg hk]
      exact ih hrest

theorem dictGet?_append_left_none {α : Type} (d₁ d₂ : List (String × α)) (k : String)
    (h : dictGet? d₁ k = none) : dictGet? (d₁ ++ d₂) k = dictGet? d₂ k := by
  induction d₁ with
  | nil => simp
  | cons p rest ih =>
    rcases p with ⟨pk, pv⟩
    by_cases hk : pk = k
    · rw [dictGet?_cons, if_pos hk] at h
      exact absurd h (by simp)
    · rw [dictGet?_cons, if_neg hk] at h
      rw [List.cons_append, dictGet?_cons, if_neg hk]
      exact ih h

theorem not_any_dictGet?_none {α : Type} (d : List (String × α)) (k : String)
    (h : d.any (fun p => decide (p.1 = k)) = false) : dictGet? d k = none := by
  induction d with
  | nil => rfl
  | cons p rest ih =>
    simp only [List.any_cons, Bool.or_eq_false_iff, decide_eq_false_iff_not] at h
    rcases p with ⟨pk, pv⟩
    rw [dictGet?_cons, if_neg h.1]
    exact ih h.2

theorem dictGet?_dictSet_self {α : Type} (d : List (String × α)) (k : String) (v : α) :
    dictGet? (dictSet d k v) k = some v := by
  unfold dictSet
  by_cases hany : d.any (fun p => decide (p.1 = k)) = true
  · rw [if_pos hany]
    exact dictGet?_map_set d k v hany
  · have hfalse : d.any (fun p => decide (p.1 = k)) = false := by
      revert hany; cases d.any (fun p => decide (p.1 = k)) <;> simp
    rw [if_neg (by simp [hfalse])]
    rw [dictGet?_append_left_none _ _ _ (not_any_dictGet?_none d k hfalse)]
    rw [dictGet?_cons, if_pos rfl]

theorem dictGet?_map_set_other {α : Type} (d : List (String × α)) (k k' : String) (v : α)
    (h : k' ≠ k) :
    dictGet? (d.map (fun p => if p.1 = k then (k, v) else p)) k' = dictGet? d k' := by
  induction d with
  | nil => rfl
  | cons p rest ih =>
    rcases p with ⟨pk, pv⟩
    rw [List.map_cons]
    by_cases hk : pk = k
    · have h1 : k ≠ k' := fun hkk => h hkk.symm
      have h2 : pk ≠ k' := fun hpk => h (hk ▸ hpk :).symm
      rw [if_pos (by simpa using hk), dictGet?_cons, if_neg h1, dictGet?_cons, if_neg h2]
      exact ih
    · rw [if_neg (by simpa using hk)]
      by_cases hp' : pk = k'
      · rw [dictGet?_cons, if_pos hp', dictGet?_cons, if_pos hp']
      · rw [dictGet?_cons, if_neg hp', dictGet?_cons, if_neg hp']
        exact ih

theorem dictGet?_append_single_other {α : Type} (d : List (String × α)) (k k' : String)
    (v : α) (h : k' ≠ k) : dictGet? (d ++ [(k, v)]) k' = dictGet? d k' := by
  induction d with
  | nil =>
    have : k ≠ k' := fun hkk => h hkk.symm
    simp [dictGet?_cons, this]
  | cons p rest ih =>
    rcases p with ⟨pk, pv⟩
    by_cases hp' : pk = k'
    · rw [List.cons_append, dictGet?_cons, if_pos hp', dictGet?_cons, if_pos hp']
    · rw [List.cons_append, dictGet?_cons, if_neg hp', dictGet?_cons, if_neg hp']
      exact ih

theorem dictGet?_dictSet_other {α : Type} (d : List (String × α)) (k k' : String) (v : α)
    (h : k' ≠ k) : dictGet? (dictSet d k v) k' = dictGet? d k' := by
  unfold dictSet
  by_cases hany : d.any (fun p => decide (p.1 = k)) = true
  · rw [if_pos hany]
    exact dictGet?_map_set_other d k k' v h
  · have hfalse : d.any (fun p => decide (p.1 = k)) = false := by
      revert hany; cases d.any (fun p => decide (p.1 = k)) <;> simp
    rw [if_neg (by simp [hfalse])]
    exact dictGet?_append_single_other d k k' v h

theorem dictGet?_not_mem_keys {α : Type} (d : List (String × α)) (k : String)
    (h : k ∉ d.map Prod.fst) : dictGet? d k = none := by
  induction d with
  | nil => rfl
  | cons p rest ih =>
    simp only [List.map_cons, List.mem_cons] at h
    push_neg at h
    rcases p with ⟨pk, pv⟩
    rw [dictGet?_cons, if_neg (fun hpk : pk = k => h.1 hpk.symm)]
    exact ih h.2

/-! ## Characterization of the deep merge (claim C4 machinery) -/

theorem mergeLookup_none (b : Option ConfigVal) : mergeLookup b none = b := by
  rcases b with _ | bv
  · rfl
  · cases bv <;> rfl

theorem mergeLookup_some (b : Option ConfigVal) (v : ConfigVal) :
    mergeLookup b (some v) =
      some (match b, v with
        | some (ConfigVal.dict rd), ConfigVal.dict vd =>
          ConfigVal.dict (merge_configs rd vd)
        | _, _ => v) := by
  rcases b with _ | bv
  · cases v <;> rfl
  · cases bv <;> cases v <;> rfl

theorem merge_configs_cons (base : List (String × ConfigVal)) (k : String)
    (v : ConfigVal) (rest : List (String × ConfigVal)) :
    merge_configs base ((k, v) :: rest) =
      merge_configs
        (dictSet base k
          (match dictGet? base k, v with
            | some (ConfigVal.dict rd), ConfigVal.dict vd =>
              ConfigVal.dict (merge_configs rd vd)
            | _, _ => v))
        rest := by
  rw [merge_configs.eq_def]
  rcases hb : dictGet? base k with _ | bv
  · cases v <;> simp [hb]
  · cases bv <;> cases v <;> simp [hb]

theorem dictGet?_merge_configs (ov base : List (String × ConfigVal)) (k : String)
    (hnd : (ov.map Prod.fst).Nodup) :
    dictGet? (merge_configs base ov) k =
      mergeLookup (dictGet? base k) (dictGet? ov k) := by
  induction ov generalizing base with
  | nil =>
    rw [merge_configs]
    rw [dictGet?_nil, mergeLookup_none]
  | cons p rest ih =>
    rcases p with ⟨k0, v0⟩
    simp only [List.map_cons, List.nodup_cons] at hnd
    rw [merge_configs_cons, ih _ hnd.2]
    by_cases hk : k0 = k
    · subst hk
      rw [dictGet?_dictSet_self, dictGet?_not_mem_keys rest k0 hnd.1, mergeLookup_none,
        dictGet?_cons, if_pos rfl, mergeLookup_some]
    · rw [dictGet?_dictSet_other base k0 k _ (fun h' => hk h'.symm),
        dictGet?_cons, if_neg hk]

/-! ## Dot-path lookup agrees with the spec-side relation (claim C7 machinery) -/

theorem getValue_eq_some_iff (path : List String) (v w : ConfigVal) :
    getValue v path = some w ↔ Resolves v path w := by
  induction path generalizing v with
  | nil =>
    constructor
    · intro h
      rw [getValue] at h
      injection h with h'
      subst h'
      exact Resolves.nil v
    · intro hr
      cases hr
      rw [getValue]
  | cons k rest ih =>
    constructor
    · intro h
      rw [getValue.eq_def] at h
      cases v with
      | dict d =>
        simp only at h
        rcases hd : dictGet? d k with _ | v'
        · simp only [hd] at h
          exact Option.noConfusion h
        · simp only [hd] at h
          exact Resolves.cons d k rest v' w hd ((ih v').mp h)
      | null => exact Option.noConfusion h
      | bool b => exact Option.noConfusion h
      | int n => exact Option.noConfusion h
      | str s => exact Option.noConfusion h
    · intro hr
      cases hr with
      | cons d _ _ v' _ hd hres =>
        rw [getValue.eq_def]
        simp only [hd]
        exact (ih v').mpr hres

/-! ## Heap frame lemmas (claim C10 machinery) -/

theorem mergeEntriesWith_extends
    (mergeFn : Heap → Nat → Nat → Option (Heap × Nat))
    (hfn : ∀ h ba oa h' a, mergeFn h ba oa = some (h', a) → ∃ t, h' = h ++ t)
    (ov : List (String × Nat)) :
    ∀ (h : Heap) (acc : List (String × Nat)) (h' : Heap) (acc' : List (String × Nat)),
      mergeEntriesWith mergeFn h acc ov = some (h', acc') → ∃ t, h' = h ++ t := by
  induction ov with
  | nil =>
    intro h acc h' acc' hm
    rw [mergeEntriesWith] at hm
    cases hm
    exact ⟨[], by simp⟩
  | cons p rest ih =>
    rcases p with ⟨k, va⟩
    intro h acc h' acc' hm
    rw [mergeEntriesWith] at hm
    rcases hacc : dictGet? acc k with _ | ba
    · simp only [hacc] at hm
      exact ih h _ h' acc' hm
    · simp only [hacc] at hm
      rcases hba : h.get? ba with _ | pb
      · simp only [hba] at hm
        exact ih h _ h' acc' hm
      · rcases hva : h.get? va with _ | pv
        · cases pb <;> simp only [hba, hva] at hm <;> exact ih h _ h' acc' hm
        · cases pb <;> cases pv <;> simp only [hba, hva] at hm <;>
            try exact ih h _ h' acc' hm
          rename_i be oe
          rcases hfc : mergeFn h ba va with _ | r
          · simp only [hfc] at hm
            exact Option.noConfusion hm
          · rcases r with ⟨h₁, na⟩
            simp only [hfc] at hm
            rcases hfn h ba va h₁ na hfc with ⟨t₁, rfl⟩
            rcases ih _ _ h' acc' hm with ⟨t₂, ht₂⟩
            exact ⟨t₁ ++ t₂, by rw [ht₂, List.append_assoc]⟩

theorem mergeConfigsHeap_extends (fuel : Nat) :
    ∀ (h : Heap) (ba oa : Nat) (h' : Heap) (a : Nat),
      mergeConfigsHeap fuel h ba oa = some (h', a) →
      (∃ t, h' = h ++ t) ∧ h.length ≤ a := by
  induction fuel with
  | zero => intro h ba oa h' a hm; rw [mergeConfigsHeap] at hm; cases hm
  | succ fuel ih =>
    intro h ba oa h' a hm
    rw [mergeConfigsHeap] at hm
    rcases hba : h.get? ba with _ | pb
    · simp only [hba] at hm
      exact Option.noConfusion hm
    · rcases hoa : h.get? oa with _ | po
      · cases pb <;> simp only [hba, hoa] at hm <;> exact Option.noConfusion hm
      · cases pb <;> cases po <;> simp only [hba, hoa] at hm <;>
          try exact Option.noConfusion hm
        rename_i be oe
        rcases hent : mergeEntriesWith (mergeConfigsHeap fuel) h be oe with _ | r
        · simp only [hent] at hm
          exact Option.noConfusion hm
        · rcases r with ⟨h₁, entries⟩
          simp only [hent] at hm
          cases hm
          rcases mergeEntriesWith_extends (mergeConfigsHeap fuel)
              (fun h₂ b₂ o₂ h₂' a₂ hm₂ => (ih h₂ b₂ o₂ h₂' a₂ hm₂).1)
              oe h be h₁ entries hent with ⟨t, rfl⟩
          constructor
          · exact ⟨t ++ [PyVal.dict entries], by rw [List.append_assoc]⟩
          · simp

/-! ## Lemmas about the workflow pipeline -/

namespace Workflow

theorem runQuery_ok_events (q : String) (o : Oracle) (g : HasSensitiveInformation)
    (d : ServiceDecision) (hg : o.guardrail = Except.ok g)
    (hv : g.has_sensitive_information = false) (hr : o.router = Except.ok d) :
    (runQuery q o).1 =
      Event.guardrailCall q :: Event.routerCall q ::
        (fanout q o (selected d)).events ++ postFanout q o (fanout q o (selected d)) := by
  rw [runQuery]
  simp only [hg, hv, hr, Bool.false_eq_true, if_false]

theorem runQuery_ok_elapsed (q : String) (o : Oracle) (g : HasSensitiveInformation)
    (d : ServiceDecision) (hg : o.guardrail = Except.ok g)
    (hv : g.has_sensitive_information = false) (hr : o.router = Except.ok d) :
    (runQuery q o).2 = (fanout q o (selected d)).elapsed := by
  rw [runQuery]
  simp only [hg, hv, hr, Bool.false_eq_true, if_false]

theorem mem_selected (d : ServiceDecision) (s : Service) :
    s ∈ selected d ↔ flagOf d s = true := by
  rcases d with ⟨sn, gt, os, r⟩
  cases s <;> cases sn <;> cases gt <;> cases os <;>
    simp [selected, flagOf]

theorem selected_nodup (d : ServiceDecision) : (selected d).Nodup := by
  rcases d with ⟨sn, gt, os, r⟩
  cases sn <;> cases gt <;> cases os <;> simp [selected]

theorem callEvent_inj (q : String) (s s' : Service) :
    callEvent q s = callEvent q s' ↔ s = s' := by
  cases s <;> cases s' <;> simp [callEvent]

theorem failLog_shape (o : Oracle) (s : Service) (ev : Event)
    (h : failLog o s = some ev) :
    ∃ e, ev = Event.platformFailureLogged (pyName s) e ∧ outcomeOf o s = Except.error e := by
  rw [failLog] at h
  rcases ho : outcomeOf o s with e | r <;> rw [ho] at h
  · injection h with h'
    exact ⟨e, h'.symm, rfl⟩
  · cases h

theorem callEvent_mem_fanout (q : String) (o : Oracle) (s : Service)
    (ss : List Service) : callEvent q s ∈ (fanout q o ss).events ↔ s ∈ ss := by
  match ss with
  | [] => simp [fanout]
  | [s'] =>
    rcases ho : outcomeOf o s' with e | r <;>
      simp [fanout, ho, callEvent_inj]
  | s1 :: s2 :: rest =>
    rw [fanout]
    simp only [List.mem_append, List.mem_map, List.mem_filterMap]
    constructor
    · rintro (⟨x, hx, hcall⟩ | ⟨x, _, hfl⟩)
      · exact (callEvent_inj q x s).mp hcall ▸ hx
      · rcases failLog_shape o x _ hfl with ⟨e, hev, _⟩
        exact absurd hev.symm (by cases s <;> simp [callEvent])
    · intro hs
      exact Or.inl ⟨s, hs, rfl⟩

theorem mem_postFanout (q : String) (o : Oracle) (f : FanoutResult) (e : Event)
    (he : e ∈ postFanout q o f) :
    (∃ c, e = Event.visualizeCall c) ∨ ∃ m, e = Event.queryErrorLogged m := by
  rw [postFanout] at he
  rcases hab : f.aborted with _ | msg <;> simp only [hab] at he
  · rcases hviz : o.visualize with em | vr <;> simp only [hviz] at he <;>
      simp at he
    · rcases he with he | he
      · exact Or.inl ⟨_, he⟩
      · exact Or.inr ⟨_, he⟩
    · exact Or.inl ⟨_, he⟩
  · simp at he
    exact Or.inr ⟨_, he⟩

theorem slotOf_setSlot_self (sl : ResultSlots) (s : Service)
    (v : Option (List PlatformQueryRecord)) : slotOf (setSlot sl s v) s = v := by
  cases s <;> rfl

theorem slotOf_setSlot_other (sl : ResultSlots) (s s' : Service)
    (v : Option (List PlatformQueryRecord)) (h : s ≠ s') :
    slotOf (setSlot sl s v) s' = slotOf sl s' := by
  cases s <;> cases s' <;> first | rfl | exact absurd rfl h

theorem slotOf_foldl_not_mem (q : String) (o : Oracle) (ss : List Service)
    (sl : ResultSlots) (s : Service) (h : s ∉ ss) :
    slotOf (ss.foldl (fun acc x => setSlot acc x (slotVal q o x)) sl) s = slotOf sl s := by
  induction ss generalizing sl with
  | nil => rfl
  | cons a t ih =>
    simp only [List.mem_cons] at h
    push_neg at h
    rw [List.foldl_cons, ih _ h.2,
      slotOf_setSlot_other sl a s _ (fun he => h.1 he.symm)]

theorem slotOf_foldl_mem (q : String) (o : Oracle) (ss : List Service)
    (sl : ResultSlots) (s : Service) (hnd : ss.Nodup) (h : s ∈ ss) :
    slotOf (ss.foldl (fun acc x => setSlot acc x (slotVal q o x)) sl) s = slotVal q o s := by
  induction ss generalizing sl with
  | nil => cases h
  | cons a t ih =>
    rw [List.nodup_cons] at hnd
    rcases List.mem_cons.mp h with rfl | ht
    · rw [List.foldl_cons, slotOf_foldl_not_mem q o t _ s hnd.1, slotOf_setSlot_self]
    · rw [List.foldl_cons]
      exact ih _ hnd.2 ht

theorem maxLatency_le_sum (l : List Nat) : maxLatency l ≤ l.sum := by
  induction l with
  | nil => simp [maxLatency]
  | cons a t ih =>
    rw [maxLatency] at ih ⊢
    rw [List.foldr_cons, List.sum_cons]
    exact Nat.max_le.mpr ⟨Nat.le_add_right a t.sum,
      Nat.le_trans ih (Nat.le_add_left t.sum a)⟩

theorem maxLatency_lt_sum (l : List Nat) (hlen : 2 ≤ l.length)
    (hpos : ∀ x ∈ l, 0 < x) : maxLatency l < l.sum := by
  match l with
  | [] => simp at hlen
  | [a] => simp at hlen
  | a :: b :: t =>
    have ha : 0 < a := hpos a (by simp)
    have hb : 0 < b := hpos b (by simp)
    have hmt : maxLatency t ≤ t.sum := maxLatency_le_sum t
    rw [maxLatency, List.foldr_cons, List.foldr_cons, List.sum_cons, List.sum_cons]
    rw [maxLatency] at hmt
    refine Nat.max_lt.mpr ⟨by omega, Nat.max_lt.mpr ⟨by omega, by omega⟩⟩

theorem countP_isVisualizeCall_fanout (q : String) (o : Oracle) (ss : List Service) :
    ((fanout q o ss).events.countP isVisualizeCall) = 0 := by
  rw [List.countP_eq_zero]
  intro e he
  match ss with
  | [] => simp [fanout] at he
  | [s] =>
    rcases ho : outcomeOf o s with em | r <;> rw [fanout] at he <;>
      simp only [ho] at he <;> simp at he <;> subst he <;>
      cases s <;> simp [callEvent, isVisualizeCall]
  | s1 :: s2 :: rest =>
    rw [fanout] at he
    simp only [List.mem_append, List.mem_map, List.mem_filterMap] at he
    rcases he with ⟨x, _, rfl⟩ | ⟨x, _, hfl⟩
    · cases x <;> simp [callEvent, isVisualizeCall]
    · rcases failLog_shape o x _ hfl with ⟨e', rfl, _⟩
      simp [isVisualizeCall]

theorem countP_isVisualizeCall_postFanout (q : String) (o : Oracle) (f : FanoutResult)
    (hab : f.aborted = none) :
    (postFanout q o f).countP isVisualizeCall = 1 := by
  rw [postFanout]
  simp only [hab]
  rcases o.visualize with em | vr <;>
    simp [List.countP_cons, isVisualizeCall]

end Workflow

namespace MainPy

theorem mainRunQuery_ok_events (q : String) (o : Oracle) (g : HasSensitiveInformation)
    (d : MainServiceDecision) (hg : o.guardrail = Except.ok g)
    (hv : g.has_sensitive_information = false) (hr : o.router = Except.ok d) :
    runQuery q o =
      Event.guardrailCall q :: Event.routerCall q ::
        (mainFanout q o d).1 ++ postFanout q o (mainFanout q o d) := by
  rw [runQuery]
  simp only [hg, hv, hr, Bool.false_eq_true, if_false]

theorem mem_mainPostFanout (q : String) (o : Oracle)
    (f : List Event × (Option (List PlatformQueryRecord) × Option (List PlatformQueryRecord))
      × Option String) (e : Event) (he : e ∈ postFanout q o f) :
    (∃ c, e = Event.aggregateCall c) ∨ ∃ m, e = Event.queryErrorLogged m := by
  rw [postFanout] at he
  rcases hab : f.2.2 with _ | msg <;> simp only [hab] at he
  · rcases hagg : o.aggregate with em | ar <;> simp only [hagg] at he <;>
      simp at he
    · rcases he with he | he
      · exact Or.inl ⟨_, he⟩
      · exact Or.inr ⟨_, he⟩
    · exact Or.inl ⟨_, he⟩
  · simp at he
    exact Or.inr ⟨_, he⟩

theorem countP_isAggregateCall_postFanout (q : String) (o : Oracle)
    (f : List Event × (Option (List PlatformQueryRecord) × Option (List PlatformQueryRecord))
      × Option String) (hab : f.2.2 = none) :
    (postFanout q o f).countP isAggregateCall = 1 := by
  rw [postFanout]
  simp only [hab]
  rcases o.aggregate with em | ar <;>
    simp [List.countP_cons, isAggregateCall]

/-- The fan-out branch of `main.py` when both platforms are selected. -/
theorem mainFanout_both (q : String) (o : Oracle) (d : MainServiceDecision)
    (hsn : d.servicenow = true) (hgt : d.gti = true) :
    mainFanout q o d =
      ([Event.servicenowCall q, Event.gtiCall q]
        ++ (match o.servicenow with
            | Except.error e => [Event.platformFailureLogged "ServiceNow" e]
            | Except.ok _ => [])
        ++ (match o.gti with
            | Except.error e => [Event.platformFailureLogged "GTI" e]
            | Except.ok _ => []),
        ((match o.servicenow with
          | Except.error _ => none
          | Except.ok r => some [PlatformQueryRecord.mk q r "ServiceNow"]),
         (match o.gti with
          | Except.error _ => none
          | Except.ok r => some [PlatformQueryRecord.mk q r "Google Threat Intelligence"])),
        none) := by
  rw [mainFanout]
  simp only [hsn, hgt, Bool.and_self, if_true]

end MainPy

/-! ## Context-string lemmas (claim C5 machinery) -/

theorem foldl_result_lines (rs : List PlatformQueryRecord) (c : String) :
    rs.foldl (fun c r => c ++ "- " ++ r.result ++ "\n") c = c ++ specLines rs := by
  induction rs generalizing c with
  | nil => rw [List.foldl_nil, specLines, String.append_empty]
  | cons r t ih =>
    rw [List.foldl_cons, ih, specLines]
    simp only [String.append_assoc]

theorem buildVizContext_eq (q : String)
    (sn gt os : Option (List PlatformQueryRecord))
    (hsn : sn ≠ some []) (hgt : gt ≠ some []) (hos : os ≠ some []) :
    Workflow.buildVizContext q sn gt os =
      "Original Query: " ++ q ++ "\n\n"
        ++ specSection "ServiceNow Results:\n" sn
        ++ specSection "GTI Results:\n" gt
        ++ specSection "OpenSearch Results:\n" os := by
  rcases sn with _ | ⟨_ | ⟨r1, t1⟩⟩ <;> rcases gt with _ | ⟨_ | ⟨r2, t2⟩⟩ <;>
    rcases os with _ | ⟨_ | ⟨r3, t3⟩⟩ <;>
    first
    | exact absurd rfl hsn
    | exact absurd rfl hgt
    | exact absurd rfl hos
    | (simp only [Workflow.buildVizContext, specSection]
       try simp only [foldl_result_lines]
       try simp only [specLines]
       try simp only [String.append_assoc, String.append_empty]
       try rfl)

theorem aggContext_eq (q : String) (sn gt : Option (List PlatformQueryRecord))
    (hsn : sn ≠ some []) (hgt : gt ≠ some []) :
    MainPy.aggContext q sn gt =
      "Original Query: " ++ q ++ "\n\n"
        ++ specSection "ServiceNow Results:\n" sn
        ++ specSection "GTI Results:\n" gt
        ++ "Please provide a comprehensive summary and recommendations based on all available information." := by
  rcases sn with _ | ⟨_ | ⟨r1, t1⟩⟩ <;> rcases gt with _ | ⟨_ | ⟨r2, t2⟩⟩ <;>
    first
    | exact absurd rfl hsn
    | exact absurd rfl hgt
    | (simp only [MainPy.aggContext, specSection]
       try simp only [foldl_result_lines]
       try simp only [specLines]
       try simp only [String.append_assoc, String.append_empty]
       try rfl)

/-! ## Claim theorems -/

/-- C4: recursively merging a base configuration dictionary with an override
dictionary yields, for each key, the recursive merge when both sides hold
dictionaries and otherwise the override value (keys absent from the override
keep their base value — later keys win); in particular, merging
base = {a: {x:1, y:2}} with overlay = {a: {y:3, z:4}} yields
{a: {x:1, y:3, z:4}}. -/
theorem C4_merge_configs_deep_merge :
    (∀ (base ov : List (String × ConfigVal)) (k : String),
      (ov.map Prod.fst).Nodup →
      dictGet? (merge_configs base ov) k =
        mergeLookup (dictGet? base k) (dictGet? ov k)) ∧
    merge_configs
        [("a", ConfigVal.dict [("x", ConfigVal.int 1), ("y", ConfigVal.int 2)])]
        [("a", ConfigVal.dict [("y", ConfigVal.int 3), ("z", ConfigVal.int 4)])] =
      [("a", ConfigVal.dict
        [("x", ConfigVal.int 1), ("y", ConfigVal.int 3), ("z", ConfigVal.int 4)])] := by
  constructor
  · intro base ov k hnd
    exact dictGet?_merge_configs ov base k hnd
  · simp [merge_configs, dictGet?, dictSet]

/-- Witness for C4 at a concrete input: the override keys are distinct and the
merged lookup of key "a" behaves as the per-key characterization states. -/
theorem C4_merge_configs_deep_merge_witness :
    (([("a", ConfigVal.dict [("y", ConfigVal.int 3), ("z", ConfigVal.int 4)])].map
        Prod.fst).Nodup) ∧
    dictGet? (merge_configs
        [("a", ConfigVal.dict [("x", ConfigVal.int 1), ("y", ConfigVal.int 2)])]
        [("a", ConfigVal.dict [("y", ConfigVal.int 3), ("z", ConfigVal.int 4)])]) "a" =
      mergeLookup
        (dictGet? [("a", ConfigVal.dict [("x", ConfigVal.int 1), ("y", ConfigVal.int 2)])] "a")
        (dictGet? [("a", ConfigVal.dict [("y", ConfigVal.int 3), ("z", ConfigVal.int 4)])] "a") :=
  ⟨by decide, C4_merge_configs_deep_merge.1 _ _ "a" (by decide)⟩

/-- C7: for every dot-separated key path, `ConfigManager.get` returns the
nested configuration value when every path segment resolves (each
intermediate value a dictionary containing the segment), and the
caller-supplied default otherwise; the embedding is a total function, so no
exception escapes. -/
theorem C7_config_get_dot_path :
    ∀ (config : List (String × ConfigVal)) (key_path : String) (default : ConfigVal),
      (∀ w, Resolves (ConfigVal.dict config) (pySplit key_path '.') w →
        configManagerGet config key_path default = w) ∧
      ((∀ w, ¬ Resolves (ConfigVal.dict config) (pySplit key_path '.') w) →
        configManagerGet config key_path default = default) := by
  intro config key_path default
  constructor
  · intro w hw
    rw [← getValue_eq_some_iff] at hw
    rw [configManagerGet]
    simp only [hw]
  · intro hnone
    rw [configManagerGet]
    rcases hv : getValue (ConfigVal.dict config) (pySplit key_path '.') with _ | u
    · simp only [hv]
    · exact absurd ((getValue_eq_some_iff _ _ _).mp hv) (hnone u)

/-- Witness for C7 at a concrete input: the path "azure_openai.model"
resolves and `get` returns the nested value. -/
theorem C7_config_get_dot_path_witness :
    Resolves
        (ConfigVal.dict [("azure_openai", ConfigVal.dict [("model", ConfigVal.str "gpt-4o")])])
        (pySplit "azure_openai.model" '.') (ConfigVal.str "gpt-4o") ∧
    configManagerGet [("azure_openai", ConfigVal.dict [("model", ConfigVal.str "gpt-4o")])]
        "azure_openai.model" ConfigVal.null = ConfigVal.str "gpt-4o" := by
  have hres : Resolves
      (ConfigVal.dict [("azure_openai", ConfigVal.dict [("model", ConfigVal.str "gpt-4o")])])
      (pySplit "azure_openai.model" '.') (ConfigVal.str "gpt-4o") := by
    have h1 : pySplit "azure_openai.model" '.' = ["azure_openai", "model"] := rfl
    rw [h1]
    exact Resolves.cons _ _ _ _ _ rfl (Resolves.cons _ _ _ _ _ rfl (Resolves.nil _))
  exact ⟨hres, (C7_config_get_dot_path _ _ _).1 _ hres⟩

/-- C8: if any of the required environment variables (`ENV` at the first
check, `AZURE_OPENAI_ENDPOINT` or `AZURE_OPENAI_API_KEY` at the later
checks) is unset at startup, the program stops with a `ValueError` carrying
the source's message, and the query loop never runs (assuming the base
configuration file exists, since `load_config` runs between the checks);
there is no fallback value. -/
theorem C8_startup_env_required :
    ∀ (env1 env2 : String → Option String) (queries : List (String × MainPy.Oracle)),
      (env1 "ENV" = none →
        MainPy.mainProgram env1 env2 true queries =
          Except.error (InitError.valueError
            "ENV environment variable is required, please set it in the .env file. It will be default to 'development' if not set.")) ∧
      (env2 "AZURE_OPENAI_ENDPOINT" = none → (∃ v, env1 "ENV" = some v) →
        MainPy.mainProgram env1 env2 true queries =
          Except.error (InitError.valueError
            "AZURE_OPENAI_ENDPOINT environment variable is required")) ∧
      (env2 "AZURE_OPENAI_API_KEY" = none → (∃ v, env1 "ENV" = some v) →
        (∃ w, env2 "AZURE_OPENAI_ENDPOINT" = some w) →
        MainPy.mainProgram env1 env2 true queries =
          Except.error (InitError.valueError
            "AZURE_OPENAI_API_KEY environment variable is required")) ∧
      (∀ err, moduleInit env1 env2 true = Except.error err →
        ∀ events, MainPy.mainProgram env1 env2 true queries ≠ Except.ok events) := by
  intro env1 env2 queries
  refine ⟨?_, ?_, ?_, ?_⟩
  · intro h
    simp only [MainPy.mainProgram, moduleInit, h]
  · rintro h ⟨v, hv⟩
    simp only [MainPy.mainProgram, moduleInit, hv, h, if_true]
  · rintro h ⟨v, hv⟩ ⟨w, hw⟩
    simp only [MainPy.mainProgram, moduleInit, hv, hw, h, if_true]
  · intro err herr events
    simp only [MainPy.mainProgram, herr]
    exact fun hcontr => Except.noConfusion hcontr

/-- Witness for C8 at a concrete input: with an empty environment the
program stops at the `ENV` check. -/
theorem C8_startup_env_required_witness :
    ((fun (_ : String) => (none : Option String)) "ENV" = none) ∧
    MainPy.mainProgram (fun _ => none) (fun _ => none) true [] =
      Except.error (InitError.valueError
        "ENV environment variable is required, please set it in the .env file. It will be default to 'development' if not set.") :=
  ⟨rfl, (C8_startup_env_required (fun _ => none) (fun _ => none) []).1 rfl⟩

/-- C10: `_merge_configs` is non-destructive: on the heap model it only
allocates (the new heap extends the old one), every pre-existing address —
in particular the base and override dictionaries and every nested dictionary
they reach — holds its old value afterwards, and the returned result
dictionary is a fresh address outside the old heap. -/
theorem C10_merge_configs_frame :
    ∀ (fuel : Nat) (h : Heap) (baseAddr overAddr : Nat) (h' : Heap) (a : Nat),
      mergeConfigsHeap fuel h baseAddr overAddr = some (h', a) →
      (∃ t, h' = h ++ t) ∧ (∀ i, i < h.length → h'[i]? = h[i]?) ∧
        h.length ≤ a := by
  intro fuel h ba oa h' a hm
  rcases mergeConfigsHeap_extends fuel h ba oa h' a hm with ⟨⟨t, rfl⟩, hlen⟩
  exact ⟨⟨t, rfl⟩, fun i hi => List.getElem?_append_left hi, hlen⟩

/-- Witness for C10 at a concrete input: merging the heap encoding of
base = {a: {x:1, y:2}} (address 3) with override = {a: {y:3, z:4}}
(address 7) extends the heap with two fresh dicts and leaves all eight
original addresses untouched. -/
theorem C10_merge_configs_frame_witness :
    (mergeConfigsHeap 4
        [PyVal.int 1, PyVal.int 2, PyVal.dict [("x", 0), ("y", 1)], PyVal.dict [("a", 2)],
         PyVal.int 3, PyVal.int 4, PyVal.dict [("y", 4), ("z", 5)], PyVal.dict [("a", 6)]]
        3 7 =
      some ([PyVal.int 1, PyVal.int 2, PyVal.dict [("x", 0), ("y", 1)], PyVal.dict [("a", 2)],
         PyVal.int 3, PyVal.int 4, PyVal.dict [("y", 4), ("z", 5)], PyVal.dict [("a", 6)],
         PyVal.dict [("x", 0), ("y", 4), ("z", 5)], PyVal.dict [("a", 8)]], 9)) ∧
    ((∃ t, ([PyVal.int 1, PyVal.int 2, PyVal.dict [("x", 0), ("y", 1)], PyVal.dict [("a", 2)],
         PyVal.int 3, PyVal.int 4, PyVal.dict [("y", 4), ("z", 5)], PyVal.dict [("a", 6)],
         PyVal.dict [("x", 0), ("y", 4), ("z", 5)], PyVal.dict [("a", 8)]] : Heap) =
        [PyVal.int 1, PyVal.int 2, PyVal.dict [("x", 0), ("y", 1)], PyVal.dict [("a", 2)],
         PyVal.int 3, PyVal.int 4, PyVal.dict [("y", 4), ("z", 5)], PyVal.dict [("a", 6)]] ++ t) ∧
      (∀ i, i < ([PyVal.int 1, PyVal.int 2, PyVal.dict [("x", 0), ("y", 1)], PyVal.dict [("a", 2)],
         PyVal.int 3, PyVal.int 4, PyVal.dict [("y", 4), ("z", 5)], PyVal.dict [("a", 6)]] : Heap).length →
        ([PyVal.int 1, PyVal.int 2, PyVal.dict [("x", 0), ("y", 1)], PyVal.dict [("a", 2)],
         PyVal.int 3, PyVal.int 4, PyVal.dict [("y", 4), ("z", 5)], PyVal.dict [("a", 6)],
         PyVal.dict [("x", 0), ("y", 4), ("z", 5)], PyVal.dict [("a", 8)]] : Heap)[i]? =
        ([PyVal.int 1, PyVal.int 2, PyVal.dict [("x", 0), ("y", 1)], PyVal.dict [("a", 2)],
         PyVal.int 3, PyVal.int 4, PyVal.dict [("y", 4), ("z", 5)], PyVal.dict [("a", 6)]] : Heap)[i]?) ∧
      ([PyVal.int 1, PyVal.int 2, PyVal.dict [("x", 0), ("y", 1)], PyVal.dict [("a", 2)],
         PyVal.int 3, PyVal.int 4, PyVal.dict [("y", 4), ("z", 5)], PyVal.dict [("a", 6)]] : Heap).length ≤ 9) :=
  ⟨rfl, C10_merge_configs_frame 4 _ 3 7 _ 9 rfl⟩

/-- C1: for every query whose guardrail verdict is flagged, the only events
of that query are the guardrail call and the logged early-exit carrying the
verdict's reasoning — so the router, the fan-out and the
aggregation/visualization step are never invoked — and the loop continues
with the remaining queued queries; this holds in both the three-platform
workflow and the two-platform `main.py` variant. -/
theorem C1_guardrail_trip_skips_query :
    (∀ (q : String) (o : Workflow.Oracle) (g : HasSensitiveInformation)
        (rest : List (String × Workflow.Oracle)),
      o.guardrail = Except.ok g → g.has_sensitive_information = true →
      (Workflow.runQuery q o).1 =
          [Event.guardrailCall q, Event.guardrailTripped g.reasoning] ∧
        Workflow.runLoop ((q, o) :: rest) =
          [Event.guardrailCall q, Event.guardrailTripped g.reasoning]
            ++ Workflow.runLoop rest) ∧
    (∀ (q : String) (o : MainPy.Oracle) (g : HasSensitiveInformation)
        (rest : List (String × MainPy.Oracle)),
      o.guardrail = Except.ok g → g.has_sensitive_information = true →
      MainPy.runQuery q o =
          [Event.guardrailCall q, Event.guardrailTripped g.reasoning] ∧
        MainPy.runLoop ((q, o) :: rest) =
          [Event.guardrailCall q, Event.guardrailTripped g.reasoning]
            ++ MainPy.runLoop rest) := by
  constructor
  · intro q o g rest hg hflag
    have hev : (Workflow.runQuery q o).1 =
        [Event.guardrailCall q, Event.guardrailTripped g.reasoning] := by
      rw [Workflow.runQuery]
      simp only [hg, hflag, if_true]
    exact ⟨hev, by rw [Workflow.runLoop, hev]⟩
  · intro q o g rest hg hflag
    have hev : MainPy.runQuery q o =
        [Event.guardrailCall q, Event.guardrailTripped g.reasoning] := by
      rw [MainPy.runQuery]
      simp only [hg, hflag, if_true]
    exact ⟨hev, by rw [MainPy.runLoop, hev]⟩

/-- Witness for C1 at a concrete input: a flagged query produces exactly the
two guardrail events and the loop proceeds to the next query. -/
theorem C1_guardrail_trip_skips_query_witness :
    ((⟨Except.ok ⟨true, "query contains an API key"⟩, Except.ok ⟨true, true, true, "r"⟩,
        Except.ok "sn", 1, Except.ok "g", 1, Except.ok "os", 1,
        Except.ok ⟨"s", "bar", "c"⟩⟩ : Workflow.Oracle).guardrail =
      Except.ok ⟨true, "query contains an API key"⟩) ∧
    (Workflow.runQuery "reset the password abc123"
        ⟨Except.ok ⟨true, "query contains an API key"⟩, Except.ok ⟨true, true, true, "r"⟩,
          Except.ok "sn", 1, Except.ok "g", 1, Except.ok "os", 1,
          Except.ok ⟨"s", "bar", "c"⟩⟩).1 =
      [Event.guardrailCall "reset the password abc123",
       Event.guardrailTripped "query contains an API key"] :=
  ⟨rfl, ((C1_guardrail_trip_skips_query.1 "reset the password abc123" _ _ []) rfl rfl).1⟩

/-- C2: after a passing guardrail and a routing decision, the fan-out step
runs the per-platform query exactly for the platforms whose flag is true and
for no others (for every decision, i.e. all 2^3 flag combinations of the
workflow and all 2^2 of `main.py`); in particular when every flag is false
no platform is queried and the aggregation/visualization step is still
invoked, with no platform data. -/
theorem C2_fanout_exactly_flagged :
    (∀ (q : String) (o : Workflow.Oracle) (g : HasSensitiveInformation)
        (d : ServiceDecision),
      o.guardrail = Except.ok g → g.has_sensitive_information = false →
      o.router = Except.ok d →
      (∀ s : Service,
        Workflow.callEvent q s ∈ (Workflow.runQuery q o).1 ↔ Workflow.flagOf d s = true) ∧
      (d.servicenow = false → d.gti = false → d.opensearch = false →
        Event.visualizeCall (Workflow.buildVizContext q none none none)
            ∈ (Workflow.runQuery q o).1 ∧
          ∀ s : Service, Workflow.callEvent q s ∉ (Workflow.runQuery q o).1)) ∧
    (∀ (q : String) (o : MainPy.Oracle) (g : HasSensitiveInformation)
        (d : MainPy.MainServiceDecision),
      o.guardrail = Except.ok g → g.has_sensitive_information = false →
      o.router = Except.ok d →
      (Event.servicenowCall q ∈ MainPy.runQuery q o ↔ d.servicenow = true) ∧
      (Event.gtiCall q ∈ MainPy.runQuery q o ↔ d.gti = true) ∧
      (d.servicenow = false → d.gti = false →
        Event.aggregateCall (MainPy.aggContext q none none) ∈ MainPy.runQuery q o ∧
          Event.servicenowCall q ∉ MainPy.runQuery q o ∧
          Event.gtiCall q ∉ MainPy.runQuery q o)) := by
  constructor
  · intro q o g d hg hv hr
    have hev := Workflow.runQuery_ok_events q o g d hg hv hr
    have hmem : ∀ s : Service,
        Workflow.callEvent q s ∈ (Workflow.runQuery q o).1 ↔ s ∈ Workflow.selected d := by
      intro s
      rw [hev]
      have h1 : Workflow.callEvent q s ≠ Event.guardrailCall q := by
        cases s <;> simp [Workflow.callEvent]
      have h2 : Workflow.callEvent q s ≠ Event.routerCall q := by
        cases s <;> simp [Workflow.callEvent]
      have h3 : Workflow.callEvent q s ∉
          Workflow.postFanout q o (Workflow.fanout q o (Workflow.selected d)) := by
        intro hmem'
        rcases Workflow.mem_postFanout q o _ _ hmem' with ⟨c, hc⟩ | ⟨m, hm⟩
        · exact absurd hc (by cases s <;> simp [Workflow.callEvent])
        · exact absurd hm (by cases s <;> simp [Workflow.callEvent])
      simp [List.mem_cons, List.mem_append, h1, h2, h3,
        Workflow.callEvent_mem_fanout]
    refine ⟨fun s => (hmem s).trans (Workflow.mem_selected d s), ?_⟩
    intro hsn hgt hos
    have hsel : Workflow.selected d = [] := by
      simp [Workflow.selected, hsn, hgt, hos]
    constructor
    · rw [hev, hsel, Workflow.fanout, Workflow.postFanout]
      rcases hviz : o.visualize with em | vr <;>
        simp [hviz, Workflow.emptySlots]
    · intro s
      rw [hmem s, hsel]
      simp
  · intro q o g d hg hv hr
    rcases d with ⟨dsn, dgt, dr⟩
    rw [MainPy.runQuery]
    simp only [hg, hv, hr, Bool.false_eq_true, if_false]
    cases dsn <;> cases dgt <;>
      rcases hsn : o.servicenow with e1 | r1 <;>
      rcases hgt2 : o.gti with e2 | r2 <;>
      rcases hagg : o.aggregate with e3 | r3 <;>
      simp [MainPy.mainFanout, MainPy.postFanout, hsn, hgt2, hagg]

/-- Witness for C2 at a concrete input: with decision
{servicenow: true, gti: false, opensearch: true} the ServiceNow call is
issued if and only if its flag is set (and likewise each platform). -/
theorem C2_fanout_exactly_flagged_witness :
    ((⟨Except.ok ⟨false, "ok"⟩, Except.ok ⟨true, false, true, "r"⟩, Except.ok "sn", 1,
        Except.ok "g", 1, Except.ok "os", 1,
        Except.ok ⟨"s", "t", "c"⟩⟩ : Workflow.Oracle).router =
      Except.ok ⟨true, false, true, "r"⟩) ∧
    (∀ s : Service,
      Workflow.callEvent "list indices" s ∈
          (Workflow.runQuery "list indices"
            ⟨Except.ok ⟨false, "ok"⟩, Except.ok ⟨true, false, true, "r"⟩, Except.ok "sn", 1,
              Except.ok "g", 1, Except.ok "os", 1, Except.ok ⟨"s", "t", "c"⟩⟩).1 ↔
        Workflow.flagOf ⟨true, false, true, "r"⟩ s = true) :=
  ⟨rfl, (C2_fanout_exactly_flagged.1 "list indices"
      ⟨Except.ok ⟨false, "ok"⟩, Except.ok ⟨true, false, true, "r"⟩, Except.ok "sn", 1,
        Except.ok "g", 1, Except.ok "os", 1, Except.ok ⟨"s", "t", "c"⟩⟩
      ⟨false, "ok"⟩ ⟨true, false, true, "r"⟩ rfl rfl rfl).1⟩

/-- Counterexample to C3 as stated: when exactly one platform is selected
(here only ServiceNow) and its query raises, the exception propagates out of
the synchronous `await task` path to the per-query handler, so the
aggregation/visualization step is invoked zero times for that query — not
"still invoked exactly once" as the claim requires of every execution of the
fan-out step with a raising selected platform. -/
theorem C3_counterexample_single_platform_raise :
    Workflow.selected ⟨true, false, false, "only servicenow"⟩ = [Service.servicenow] ∧
    ((⟨Except.ok ⟨false, "ok"⟩, Except.ok ⟨true, false, false, "only servicenow"⟩,
        Except.error "ServiceNow MCP server unreachable", 5, Except.ok "u", 0,
        Except.ok "u", 0, Except.ok ⟨"s", "t", "c"⟩⟩ : Workflow.Oracle).servicenow =
      Except.error "ServiceNow MCP server unreachable") ∧
    (Workflow.runQuery "find incidents"
        ⟨Except.ok ⟨false, "ok"⟩, Except.ok ⟨true, false, false, "only servicenow"⟩,
          Except.error "ServiceNow MCP server unreachable", 5, Except.ok "u", 0,
          Except.ok "u", 0, Except.ok ⟨"s", "t", "c"⟩⟩).1 =
      [Event.guardrailCall "find incidents", Event.routerCall "find incidents",
       Event.servicenowCall "find incidents",
       Event.queryErrorLogged "ServiceNow MCP server unreachable"] ∧
    (Workflow.runQuery "find incidents"
        ⟨Except.ok ⟨false, "ok"⟩, Except.ok ⟨true, false, false, "only servicenow"⟩,
          Except.error "ServiceNow MCP server unreachable", 5, Except.ok "u", 0,
          Except.ok "u", 0, Except.ok ⟨"s", "t", "c"⟩⟩).1.countP isVisualizeCall = 0 :=
  ⟨rfl, rfl, rfl, rfl⟩

/-- C3 (amended): on the concurrent path — more than one platform selected,
where `asyncio.gather(..., return_exceptions=True)` is used — a raising
platform's slot is recorded as `None` with its failure logged, every
successful platform's slot holds its result unaffected, and the
aggregation/visualization step still runs exactly once; but when exactly one
platform is selected, a raise propagates to the per-query handler and the
aggregation step is skipped for that query.  The two-platform `main.py`
variant behaves the same on its both-platforms gather path. -/
theorem C3_fanout_failure_isolated_parallel :
    (∀ (q : String) (o : Workflow.Oracle) (g : HasSensitiveInformation)
        (d : ServiceDecision),
      o.guardrail = Except.ok g → g.has_sensitive_information = false →
      o.router = Except.ok d →
      (2 ≤ (Workflow.selected d).length →
        (∀ s ∈ Workflow.selected d, ∀ e, Workflow.outcomeOf o s = Except.error e →
          Workflow.slotOf (Workflow.fanout q o (Workflow.selected d)).slots s = none ∧
          Event.platformFailureLogged (Workflow.pyName s) e ∈ (Workflow.runQuery q o).1) ∧
        (∀ s ∈ Workflow.selected d, ∀ r, Workflow.outcomeOf o s = Except.ok r →
          Workflow.slotOf (Workflow.fanout q o (Workflow.selected d)).slots s =
            some [⟨q, r, Workflow.sourceName s⟩]) ∧
        (Workflow.runQuery q o).1.countP isVisualizeCall = 1) ∧
      (∀ s e, Workflow.selected d = [s] → Workflow.outcomeOf o s = Except.error e →
        (Workflow.runQuery q o).1 =
          [Event.guardrailCall q, Event.routerCall q, Workflow.callEvent q s,
           Event.queryErrorLogged e])) ∧
    (∀ (q : String) (o : MainPy.Oracle) (g : HasSensitiveInformation)
        (d : MainPy.MainServiceDecision),
      o.guardrail = Except.ok g → g.has_sensitive_information = false →
      o.router = Except.ok d → d.servicenow = true → d.gti = true →
      (∀ e, o.servicenow = Except.error e →
        (MainPy.mainFanout q o d).2.1.1 = none ∧
        Event.platformFailureLogged "ServiceNow" e ∈ MainPy.runQuery q o) ∧
      (∀ e, o.gti = Except.error e →
        (MainPy.mainFanout q o d).2.1.2 = none ∧
        Event.platformFailureLogged "GTI" e ∈ MainPy.runQuery q o) ∧
      (∀ r, o.servicenow = Except.ok r →
        (MainPy.mainFanout q o d).2.1.1 = some [⟨q, r, "ServiceNow"⟩]) ∧
      (∀ r, o.gti = Except.ok r →
        (MainPy.mainFanout q o d).2.1.2 = some [⟨q, r, "Google Threat Intelligence"⟩]) ∧
      (MainPy.runQuery q o).countP isAggregateCall = 1) := by
  constructor
  · intro q o g d hg hv hr
    have hev := Workflow.runQuery_ok_events q o g d hg hv hr
    constructor
    · intro hlen
      rcases hsel : Workflow.selected d with _ | ⟨s1, _ | ⟨s2, rest⟩⟩ <;>
        rw [hsel] at hlen <;> try simp at hlen
      rw [hsel] at hev
      have hnd : (s1 :: s2 :: rest).Nodup := hsel ▸ Workflow.selected_nodup d
      have hslots : (Workflow.fanout q o (s1 :: s2 :: rest)).slots =
          (s1 :: s2 :: rest).foldl
            (fun sl s => Workflow.setSlot sl s (Workflow.slotVal q o s))
            Workflow.emptySlots := rfl
      have habort : (Workflow.fanout q o (s1 :: s2 :: rest)).aborted = none := rfl
      refine ⟨?_, ?_, ?_⟩
      · intro s hs e ho
        constructor
        · rw [hslots, Workflow.slotOf_foldl_mem q o _ _ s hnd hs, Workflow.slotVal, ho]
        · rw [hev]
          have hfl : Event.platformFailureLogged (Workflow.pyName s) e ∈
              (Workflow.fanout q o (s1 :: s2 :: rest)).events := by
            rw [Workflow.fanout]
            refine List.mem_append_right _ (List.mem_filterMap.mpr ⟨s, hs, ?_⟩)
            rw [Workflow.failLog, ho]
          simp [List.mem_cons, List.mem_append, hfl]
      · intro s hs r ho
        rw [hslots, Workflow.slotOf_foldl_mem q o _ _ s hnd hs, Workflow.slotVal, ho]
      · rw [hev]
        simp [List.countP_cons, List.countP_append,
          Workflow.countP_isVisualizeCall_fanout,
          Workflow.countP_isVisualizeCall_postFanout q o _ habort, isVisualizeCall]
    · intro s e hsel ho
      rw [hev, hsel, Workflow.fanout]
      simp only [ho]
      rw [Workflow.postFanout]
      simp only []
      rfl
  · intro q o g d hg hv hr hdsn hdgt
    rcases d with ⟨dsn, dgt, dr⟩
    simp only at hdsn hdgt
    subst hdsn hdgt
    rw [MainPy.runQuery]
    simp only [hg, hv, hr, Bool.false_eq_true, if_false]
    rcases hsn : o.servicenow with e1 | r1 <;>
      rcases hgt2 : o.gti with e2 | r2 <;>
      rcases hagg : o.aggregate with e3 | r3 <;>
      simp [MainPy.mainFanout, MainPy.postFanout, hsn, hgt2, hagg,
        List.countP_cons, List.countP_append, isAggregateCall]

/-- Witness for the amended C3 at a concrete input: with ServiceNow and GTI
both selected, a raising ServiceNow leaves its slot `None` with the failure
logged, and the visualization step still runs exactly once. -/
theorem C3_fanout_failure_isolated_parallel_witness :
    2 ≤ (Workflow.selected ⟨true, true, false, "both"⟩).length ∧
    (Workflow.slotOf
        (Workflow.fanout "q0"
          ⟨Except.ok ⟨false, "ok"⟩, Except.ok ⟨true, true, false, "both"⟩,
            Except.error "boom", 3, Except.ok "gti result", 4, Except.ok "u", 0,
            Except.ok ⟨"s", "t", "c"⟩⟩
          (Workflow.selected ⟨true, true, false, "both"⟩)).slots
        Service.servicenow = none ∧
      Event.platformFailureLogged "servicenow" "boom" ∈
        (Workflow.runQuery "q0"
          ⟨Except.ok ⟨false, "ok"⟩, Except.ok ⟨true, true, false, "both"⟩,
            Except.error "boom", 3, Except.ok "gti result", 4, Except.ok "u", 0,
            Except.ok ⟨"s", "t", "c"⟩⟩).1) ∧
    (Workflow.runQuery "q0"
        ⟨Except.ok ⟨false, "ok"⟩, Except.ok ⟨true, true, false, "both"⟩,
          Except.error "boom", 3, Except.ok "gti result", 4, Except.ok "u", 0,
          Except.ok ⟨"s", "t", "c"⟩⟩).1.countP isVisualizeCall = 1 := by
  have T := (C3_fanout_failure_isolated_parallel.1 "q0"
      ⟨Except.ok ⟨false, "ok"⟩, Except.ok ⟨true, true, false, "both"⟩,
        Except.error "boom", 3, Except.ok "gti result", 4, Except.ok "u", 0,
        Except.ok ⟨"s", "t", "c"⟩⟩
      ⟨false, "ok"⟩ ⟨true, true, false, "both"⟩ rfl rfl rfl).1 (by decide)
  exact ⟨by decide, T.1 Service.servicenow (by decide) "boom" rfl, T.2.2⟩

/-- C5: the aggregation step's context is exactly the original-query line
followed by, for each platform whose (non-empty) result list is present, its
heading and one "- result" line per record, an absent platform contributing
no section; nothing else is computed from the result text before the single
external summarization call (`main.py` additionally appends its fixed
closing request line). -/
theorem C5_aggregation_context_shape :
    (∀ (q : String) (sn gt os : Option (List PlatformQueryRecord)),
      sn ≠ some [] → gt ≠ some [] → os ≠ some [] →
      Workflow.buildVizContext q sn gt os =
        "Original Query: " ++ q ++ "\n\n"
          ++ specSection "ServiceNow Results:\n" sn
          ++ specSection "GTI Results:\n" gt
          ++ specSection "OpenSearch Results:\n" os) ∧
    (∀ (q : String) (sn gt : Option (List PlatformQueryRecord)),
      sn ≠ some [] → gt ≠ some [] →
      MainPy.aggContext q sn gt =
        "Original Query: " ++ q ++ "\n\n"
          ++ specSection "ServiceNow Results:\n" sn
          ++ specSection "GTI Results:\n" gt
          ++ "Please provide a comprehensive summary and recommendations based on all available information.") :=
  ⟨buildVizContext_eq, aggContext_eq⟩

/-- Witness for C5 at the spec's concrete scenario: ServiceNow returned
"INC001: open" and GTI was not queried; the context is the query line, a
ServiceNow section containing "INC001: open", and no GTI section. -/
theorem C5_aggregation_context_shape_witness :
    ((some [⟨"find incidents for user john", "INC001: open", "ServiceNow"⟩] :
        Option (List PlatformQueryRecord)) ≠ some []) ∧
    Workflow.buildVizContext "find incidents for user john"
        (some [⟨"find incidents for user john", "INC001: open", "ServiceNow"⟩]) none none =
      "Original Query: " ++ "find incidents for user john" ++ "\n\n"
        ++ specSection "ServiceNow Results:\n"
            (some [⟨"find incidents for user john", "INC001: open", "ServiceNow"⟩])
        ++ specSection "GTI Results:\n" none
        ++ specSection "OpenSearch Results:\n" none ∧
    Workflow.buildVizContext "find incidents for user john"
        (some [⟨"find incidents for user john", "INC001: open", "ServiceNow"⟩]) none none =
      "Original Query: find incidents for user john\n\nServiceNow Results:\n- INC001: open\n\n" :=
  ⟨by decide,
   C5_aggregation_context_shape.1 "find incidents for user john" _ none none
     (by decide) (by decide) (by decide),
   rfl⟩

/-- C6: an exception raised by the aggregation/visualization call is not
caught inside the pipeline steps: the query's trace ends with the
visualization call followed directly by the top-level per-query handler's
error log, and the query loop definitionally continues with the remaining
queries. Holds for both the workflow and the `main.py` variant. -/
theorem C6_aggregation_failure_to_top_level :
    (∀ (q : String) (o : Workflow.Oracle) (g : HasSensitiveInformation)
        (d : ServiceDecision) (e : String) (rest : List (String × Workflow.Oracle)),
      o.guardrail = Except.ok g → g.has_sensitive_information = false →
      o.router = Except.ok d →
      (Workflow.fanout q o (Workflow.selected d)).aborted = none →
      o.visualize = Except.error e →
      (Workflow.runQuery q o).1 =
          Event.guardrailCall q :: Event.routerCall q ::
            (Workflow.fanout q o (Workflow.selected d)).events ++
            [Event.visualizeCall (Workflow.buildVizContext q
                (Workflow.fanout q o (Workflow.selected d)).slots.servicenow_results
                (Workflow.fanout q o (Workflow.selected d)).slots.gti_results
                (Workflow.fanout q o (Workflow.selected d)).slots.opensearch_results),
             Event.queryErrorLogged e] ∧
        Workflow.runLoop ((q, o) :: rest) =
          (Workflow.runQuery q o).1 ++ Workflow.runLoop rest) ∧
    (∀ (q : String) (o : MainPy.Oracle) (g : HasSensitiveInformation)
        (d : MainPy.MainServiceDecision) (e : String)
        (rest : List (String × MainPy.Oracle)),
      o.guardrail = Except.ok g → g.has_sensitive_information = false →
      o.router = Except.ok d →
      (MainPy.mainFanout q o d).2.2 = none →
      o.aggregate = Except.error e →
      MainPy.runQuery q o =
          Event.guardrailCall q :: Event.routerCall q ::
            (MainPy.mainFanout q o d).1 ++
            [Event.aggregateCall (MainPy.aggContext q
                (MainPy.mainFanout q o d).2.1.1 (MainPy.mainFanout q o d).2.1.2),
             Event.queryErrorLogged e] ∧
        MainPy.runLoop ((q, o) :: rest) =
          MainPy.runQuery q o ++ MainPy.runLoop rest) := by
  constructor
  · intro q o g d e rest hg hv hr hab hviz
    have hev := Workflow.runQuery_ok_events q o g d hg hv hr
    have hpost : Workflow.postFanout q o (Workflow.fanout q o (Workflow.selected d)) =
        [Event.visualizeCall (Workflow.buildVizContext q
            (Workflow.fanout q o (Workflow.selected d)).slots.servicenow_results
            (Workflow.fanout q o (Workflow.selected d)).slots.gti_results
            (Workflow.fanout q o (Workflow.selected d)).slots.opensearch_results),
         Event.queryErrorLogged e] := by
      rw [Workflow.postFanout]
      simp only [hab, hviz]
    refine ⟨?_, rfl⟩
    rw [hev, hpost]
  · intro q o g d e rest hg hv hr hab hagg
    have hev := MainPy.mainRunQuery_ok_events q o g d hg hv hr
    have hpost : MainPy.postFanout q o (MainPy.mainFanout q o d) =
        [Event.aggregateCall (MainPy.aggContext q
            (MainPy.mainFanout q o d).2.1.1 (MainPy.mainFanout q o d).2.1.2),
         Event.queryErrorLogged e] := by
      rw [MainPy.postFanout]
      simp only [hab, hagg]
    refine ⟨?_, rfl⟩
    rw [hev, hpost]

/-- Witness for C6 at a concrete input: no platform selected, the
visualization call raises, the per-query handler logs it last, and the loop
goes on. -/
theorem C6_aggregation_failure_to_top_level_witness :
    ((⟨Except.ok ⟨false, "ok"⟩, Except.ok ⟨false, false, false, "none"⟩,
        Except.ok "u", 0, Except.ok "u", 0, Except.ok "u", 0,
        Except.error "schema validation failed"⟩ : Workflow.Oracle).visualize =
      Except.error "schema validation failed") ∧
    (Workflow.runQuery "hello"
        ⟨Except.ok ⟨false, "ok"⟩, Except.ok ⟨false, false, false, "none"⟩,
          Except.ok "u", 0, Except.ok "u", 0, Except.ok "u", 0,
          Except.error "schema validation failed"⟩).1 =
      Event.guardrailCall "hello" :: Event.routerCall "hello" ::
        (Workflow.fanout "hello"
          ⟨Except.ok ⟨false, "ok"⟩, Except.ok ⟨false, false, false, "none"⟩,
            Except.ok "u", 0, Except.ok "u", 0, Except.ok "u", 0,
            Except.error "schema validation failed"⟩
          (Workflow.selected ⟨false, false, false, "none"⟩)).events ++
        [Event.visualizeCall (Workflow.buildVizContext "hello"
            (Workflow.fanout "hello"
              ⟨Except.ok ⟨false, "ok"⟩, Except.ok ⟨false, false, false, "none"⟩,
                Except.ok "u", 0, Except.ok "u", 0, Except.ok "u", 0,
                Except.error "schema validation failed"⟩
              (Workflow.selected ⟨false, false, false, "none"⟩)).slots.servicenow_results
            (Workflow.fanout "hello"
              ⟨Except.ok ⟨false, "ok"⟩, Except.ok ⟨false, false, false, "none"⟩,
                Except.ok "u", 0, Except.ok "u", 0, Except.ok "u", 0,
                Except.error "schema validation failed"⟩
              (Workflow.selected ⟨false, false, false, "none"⟩)).slots.gti_results
            (Workflow.fanout "hello"
              ⟨Except.ok ⟨false, "ok"⟩, Except.ok ⟨false, false, false, "none"⟩,
                Except.ok "u", 0, Except.ok "u", 0, Except.ok "u", 0,
                Except.error "schema validation failed"⟩
              (Workflow.selected ⟨false, false, false, "none"⟩)).slots.opensearch_results),
         Event.queryErrorLogged "schema validation failed"] :=
  ⟨rfl,
   ((C6_aggregation_failure_to_top_level.1 "hello"
      ⟨Except.ok ⟨false, "ok"⟩, Except.ok ⟨false, false, false, "none"⟩,
        Except.ok "u", 0, Except.ok "u", 0, Except.ok "u", 0,
        Except.error "schema validation failed"⟩
      ⟨false, "ok"⟩ ⟨false, false, false, "none"⟩ "schema validation failed" []
      rfl rfl rfl rfl rfl).1)⟩

/-- C9: with more than one platform selected the fan-out issues all platform
calls and joins them with `asyncio.gather`, never short-circuiting on a
failure (every selected platform's call is in the trace regardless of
outcomes), and under the cooperative-concurrency latency model its elapsed
time is exactly the maximum of the selected platforms' latencies — strictly
less than their sum whenever the latencies are positive; with exactly one
platform selected the call is awaited synchronously and the elapsed time is
that platform's latency. -/
theorem C9_fanout_concurrency_timing :
    ∀ (q : String) (o : Workflow.Oracle) (g : HasSensitiveInformation)
      (d : ServiceDecision),
      o.guardrail = Except.ok g → g.has_sensitive_information = false →
      o.router = Except.ok d →
      (2 ≤ (Workflow.selected d).length →
        (Workflow.runQuery q o).2 =
            some (Workflow.maxLatency
              ((Workflow.selected d).map (Workflow.latencyOf o))) ∧
          (∀ s ∈ Workflow.selected d,
            Workflow.callEvent q s ∈ (Workflow.runQuery q o).1) ∧
          ((∀ s ∈ Workflow.selected d, 0 < Workflow.latencyOf o s) →
            Workflow.maxLatency ((Workflow.selected d).map (Workflow.latencyOf o)) <
              ((Workflow.selected d).map (Workflow.latencyOf o)).sum)) ∧
      (∀ s, Workflow.selected d = [s] →
        (Workflow.runQuery q o).2 = some (Workflow.latencyOf o s)) := by
  intro q o g d hg hv hr
  have hev := Workflow.runQuery_ok_events q o g d hg hv hr
  have hel := Workflow.runQuery_ok_elapsed q o g d hg hv hr
  constructor
  · intro hlen
    refine ⟨?_, ?_, ?_⟩
    · rcases hsel : Workflow.selected d with _ | ⟨s1, _ | ⟨s2, rest⟩⟩ <;>
        rw [hsel] at hlen <;> try simp at hlen
      rw [hsel] at hel
      rw [hel]
      rfl
    · intro s hs
      rw [hev]
      exact List.mem_cons_of_mem _ (List.mem_cons_of_mem _
        (List.mem_append_left _ ((Workflow.callEvent_mem_fanout q o s _).mpr hs)))
    · intro hpos
      refine Workflow.maxLatency_lt_sum _ ?_ ?_
      · rw [List.length_map]
        exact hlen
      · intro x hx
        rcases List.mem_map.mp hx with ⟨s, hs, rfl⟩
        exact hpos s hs
  · intro s hsel
    rw [hsel] at hel
    rw [hel]
    rcases ho : Workflow.outcomeOf o s with e | r <;>
      rw [Workflow.fanout] <;> simp only [ho]

/-- Witness for C9 at a concrete input: all three platforms selected with
latencies 3, 4 and 5; the fan-out's elapsed time is 5 (the maximum), not 12
(the sum). -/
theorem C9_fanout_concurrency_timing_witness :
    2 ≤ (Workflow.selected ⟨true, true, true, "all"⟩).length ∧
    (Workflow.runQuery "q9"
        ⟨Except.ok ⟨false, "ok"⟩, Except.ok ⟨true, true, true, "all"⟩,
          Except.ok "a", 3, Except.ok "b", 4, Except.ok "c", 5,
          Except.ok ⟨"s", "t", "c"⟩⟩).2 =
      some (Workflow.maxLatency
        ((Workflow.selected ⟨true, true, true, "all"⟩).map
          (Workflow.latencyOf
            ⟨Except.ok ⟨false, "ok"⟩, Except.ok ⟨true, true, true, "all"⟩,
              Except.ok "a", 3, Except.ok "b", 4, Except.ok "c", 5,
              Except.ok ⟨"s", "t", "c"⟩⟩))) ∧
    Workflow.maxLatency
        ((Workflow.selected ⟨true, true, true, "all"⟩).map
          (Workflow.latencyOf
            ⟨Except.ok ⟨false, "ok"⟩, Except.ok ⟨true, true, true, "all"⟩,
              Except.ok "a", 3, Except.ok "b", 4, Except.ok "c", 5,
              Except.ok ⟨"s", "t", "c"⟩⟩)) <
      ((Workflow.selected ⟨true, true, true, "all"⟩).map
        (Workflow.latencyOf
          ⟨Except.ok ⟨false, "ok"⟩, Except.ok ⟨true, true, true, "all"⟩,
            Except.ok "a", 3, Except.ok "b", 4, Except.ok "c", 5,
            Except.ok ⟨"s", "t", "c"⟩⟩)).sum := by
  have T := (C9_fanout_concurrency_timing "q9"
      ⟨Except.ok ⟨false, "ok"⟩, Except.ok ⟨true, true, true, "all"⟩,
        Except.ok "a", 3, Except.ok "b", 4, Except.ok "c", 5,
        Except.ok ⟨"s", "t", "c"⟩⟩
      ⟨false, "ok"⟩ ⟨true, true, true, "all"⟩ rfl rfl rfl).1 (by decide)
  exact ⟨by decide, T.1, T.2.2 (by decide)⟩

end MCPOrch
